import Mathlib

/-!
# Tunexa auto-audio catalog importer — verification development

Shallow embedding of the repository's two Python source files:

* `python/main.py` — the literal catalog data (`vag_group_data`,
  `german_premium_data`) and the variable `auto_audio_db`;
* `python/send_to_api.py` — the importer: `send_to_tunexa`,
  `export_to_json_file`, and the `__main__` orchestration with the guard
  around `from main import auto_audio_db`.

Machine-level JSON values are modelled by the inductive `Json`; the Python
standard library's `json.dumps` / `json.loads` (external to the repository)
are modelled as the canonical bijection between JSON texts and `Json`
values, so serialization questions are settled at the value level.
-/

/-- A JSON value: the result of parsing a JSON document.  Objects keep
their fields in document order, as Python `dict`s do. -/
inductive Json where
  | null : Json
  | bool : Bool → Json
  | num : Int → Json
  | str : String → Json
  | arr : List Json → Json
  | obj : List (String × Json) → Json

/-- One generation record of the catalog: exactly the four string fields
that every entry literal in `main.py` carries. -/
structure GenEntry where
  generacia : String
  roky : String
  zakladny_system : String
  premiovy_system : String
deriving DecidableEq, Repr

/-- The catalog shape: brand name → model name → ordered list of
generation records.  Mappings are insertion-ordered association lists,
matching Python `dict` iteration order. -/
abbrev Catalog := List (String × List (String × List GenEntry))

/-- JSON encoding of one generation record: the object literal with the
four keys, in the order they appear in every entry of `main.py`. -/
def encodeEntry (e : GenEntry) : Json :=
  .obj [("generacia", .str e.generacia), ("roky", .str e.roky),
        ("zakladny_system", .str e.zakladny_system),
        ("premiovy_system", .str e.premiovy_system)]

/-- JSON encoding of one brand's models mapping. -/
def encodeModels (ms : List (String × List GenEntry)) : Json :=
  .obj (ms.map fun m => (m.1, .arr (m.2.map encodeEntry)))

/-- JSON encoding of the whole catalog, as `json.dumps` denotes it. -/
def encodeCatalog (c : Catalog) : Json :=
  .obj (c.map fun b => (b.1, encodeModels b.2))

/-- Partial inverse of `encodeEntry`: accepts exactly the object shape the
encoder produces for a generation record. -/
def decodeEntry : Json → Option GenEntry
  | .obj [("generacia", .str g), ("roky", .str r),
          ("zakladny_system", .str z), ("premiovy_system", .str p)] =>
      some ⟨g, r, z, p⟩
  | _ => none

/-- Decode a JSON array's elements back into generation records. -/
def decodeEntries : List Json → Option (List GenEntry)
  | [] => some []
  | j :: js => do
      let e ← decodeEntry j
      let es ← decodeEntries js
      some (e :: es)

/-- Decode one brand's models object back into the models mapping. -/
def decodeModels : List (String × Json) → Option (List (String × List GenEntry))
  | [] => some []
  | (k, .arr js) :: rest => do
      let es ← decodeEntries js
      let ms ← decodeModels rest
      some ((k, es) :: ms)
  | _ => none

/-- Decode the top-level brands object back into a catalog. -/
def decodeBrands : List (String × Json) → Option Catalog
  | [] => some []
  | (k, .obj ms) :: rest => do
      let m ← decodeModels ms
      let c ← decodeBrands rest
      some ((k, m) :: c)
  | _ => none

/-- Parse a JSON value back into a catalog, when it has catalog shape. -/
def decodeCatalog : Json → Option Catalog
  | .obj bs => decodeBrands bs
  | _ => none

/-! ## Importer model — `python/send_to_api.py`

The importer's observable behaviour is a list of printed lines (modelled
structurally: each constructor of `OutLine` is one `print` statement of the
source, carrying its dynamic parts), the list of HTTP requests issued, the
returned success flag, and the list of files written. -/

/-- One printed line of `send_to_api.py`, by source `print` statement. -/
inductive OutLine where
  /-- `Sending {len(data)} brands to Tunexa API...` -/
  | sendingBrands : Nat → OutLine
  /-- `✅ Import successful!` -/
  | importOk : OutLine
  /-- `   Brands processed: {result.get('brands', 0)}` -/
  | brandsProcessed : Json → OutLine
  /-- `   Models processed: {result.get('models', 0)}` -/
  | modelsProcessed : Json → OutLine
  /-- `   Created: {result.get('created', 0)}` -/
  | createdCount : Json → OutLine
  /-- `   Updated: {result.get('updated', 0)}` -/
  | updatedCount : Json → OutLine
  /-- `   Skipped: {result.get('skipped', 0)}` -/
  | skippedCount : Json → OutLine
  /-- `   Errors: {len(result['errors'])}` -/
  | errorsHeader : Nat → OutLine
  /-- `      - {err}` -/
  | errorItem : Json → OutLine
  /-- `❌ Error: HTTP {response.status_code}` -/
  | httpStatusError : Nat → OutLine
  /-- `print(response.text)` — the raw body, uninterpreted -/
  | bodyText : String → OutLine
  /-- `❌ Connection error - is the Tunexa API server running on port 3000?` -/
  | connErr : OutLine
  /-- `   Run: npm start` -/
  | connHint : OutLine
  /-- `❌ Error: {e}` — generic handler, exception text attached -/
  | excMsg : String → OutLine
  /-- `🎵 Tunexa Auto Audio DB → API Import Tool` -/
  | banner : OutLine
  /-- `Option 1: Send to API` -/
  | option1 : OutLine
  /-- `Option 2: Export to JSON file` -/
  | option2 : OutLine
  /-- `✅ Exported to {filename}` -/
  | exported : String → OutLine
  /-- `   You can copy/paste this into http://localhost:3000/speakers` -/
  | pasteHint : OutLine
  /-- `Then manually import via web UI:` -/
  | manualHeader : OutLine
  /-- `1. Open http://localhost:3000/speakers` -/
  | manualStep1 : OutLine
  /-- `2. Scroll to 'Bulk Import' section` -/
  | manualStep2 : OutLine
  /-- `3. Paste JSON from auto_audio_db.json` -/
  | manualStep3 : OutLine
  /-- `4. Click 'Import JSON → DB'` -/
  | manualStep4 : OutLine

/-- An HTTP response as `requests.post` returns it: numeric status,
raw body text, and the outcome of calling `response.json()` — the parsed
value, or the text of the exception it raises on an unparseable body. -/
structure HttpResponse where
  status_code : Nat
  text : String
  jsonResult : Except String Json

/-- Outcome of the single `requests.post` call, covering the exception
classes the source's handlers distinguish: a response; a
`requests.exceptions.ConnectionError`; a
`requests.exceptions.ConnectTimeout` — raised when `timeout=30` expires
during connection establishment, and a subclass of both `Timeout` and
`ConnectionError`, so the handler at line 46 catches it; a
`requests.exceptions.Timeout` that is not a `ConnectionError` (a read
timeout), which falls through to the generic `except Exception` handler;
or any other exception, with its text. -/
inductive PostOutcome where
  | ok : HttpResponse → PostOutcome
  | connectionFailure : PostOutcome
  | connectTimeoutFailure : PostOutcome
  | timeoutFailure : String → PostOutcome
  | otherFailure : String → PostOutcome

/-- The one HTTP request `send_to_tunexa` builds: URL, `Content-Type`
header, JSON body (at the value level — `json.dumps` of the payload
denotes exactly this value), and the timeout in seconds. -/
structure HttpRequest where
  url : String
  contentType : String
  body : Json
  timeout : Nat

/-- `API_URL = "http://localhost:3000/api/vehicle-speakers/import"`. -/
def API_URL : String := "http://localhost:3000/api/vehicle-speakers/import"

/-- The request `send_to_tunexa data` issues. -/
def mkRequest (data : Catalog) : HttpRequest :=
  { url := API_URL, contentType := "application/json",
    body := encodeCatalog data, timeout := 30 }

/-- First-match association lookup, matching Python `dict` access on the
items of a parsed JSON object. -/
def lookupField (fs : List (String × Json)) (k : String) : Option Json :=
  (fs.find? fun p => p.1 == k).map (·.2)

/-- `result.get(k, d)`. -/
def getD (fs : List (String × Json)) (k : String) (d : Json) : Json :=
  (lookupField fs k).getD d

/-- Python truthiness of a JSON value (`None`, `False`, `0`, `""`, `[]`
and `{}` are falsy). -/
def jsonTruthy : Json → Bool
  | .null => false
  | .bool b => b
  | .num n => n != 0
  | .str s => s != ""
  | .arr xs => !xs.isEmpty
  | .obj fs => !fs.isEmpty

/-- Python type name of a JSON value, as it appears in exception text. -/
def pyTypeName : Json → String
  | .null => "NoneType"
  | .bool _ => "bool"
  | .num _ => "int"
  | .str _ => "str"
  | .arr _ => "list"
  | .obj _ => "dict"

/-- `len(v)`: defined for lists, strings and dicts; raises `TypeError`
otherwise. -/
def pyLenE : Json → Except String Nat
  | .arr xs => .ok xs.length
  | .str s => .ok s.length
  | .obj fs => .ok fs.length
  | v => .error ("object of type \x27" ++ pyTypeName v ++ "\x27 has no len()")

/-- `v[:5]` followed by iteration: for a list, its first five elements;
for a string, its first five characters (iteration yields one-character
strings); slicing a dict raises `TypeError`; other types are unreachable
here because `len` has already raised. -/
def pySliceFive : Json → Except String (List Json)
  | .arr xs => .ok (xs.take 5)
  | .str s => .ok ((s.toList.take 5).map fun c => .str (String.singleton c))
  | .obj _ => .error "unhashable type: \x27slice\x27"
  | v => .error ("\x27" ++ pyTypeName v ++ "\x27 object is not subscriptable")

/-- The errors section of the success summary
(`print(f"   Errors: {len(result['errors'])}")` and the loop over
`result['errors'][:5]`): the lines actually printed, plus the text of the
exception that interrupts the section, if one is raised. -/
def errorsReport (ev : Json) : List OutLine × Option String :=
  match pyLenE ev with
  | .error m => ([], some m)
  | .ok n =>
    match pySliceFive ev with
    | .error m => ([.errorsHeader n], some m)
    | .ok items => (.errorsHeader n :: items.map .errorItem, none)

/-- Result of one call to `send_to_tunexa`: printed lines, requests
issued, and the returned boolean. -/
structure SendOut where
  lines : List OutLine
  requests : List HttpRequest
  success : Bool

/-- `send_to_tunexa(data)` under a given outcome of the `requests.post`
call.  Follows the source line by line: the header print, the single
POST, the 200 branch (with `response.json()` parse failure and
non-`dict` bodies landing in the generic `except Exception` handler),
the non-200 branch, and the two exception handlers. -/
def send_to_tunexa (data : Catalog) (post : PostOutcome) : SendOut :=
  let hdr := OutLine.sendingBrands data.length
  let body : List OutLine × Bool :=
    match post with
    | .connectionFailure => ([hdr, .connErr, .connHint], false)
    | .connectTimeoutFailure => ([hdr, .connErr, .connHint], false)
    | .timeoutFailure m => ([hdr, .excMsg m], false)
    | .otherFailure m => ([hdr, .excMsg m], false)
    | .ok r =>
      if r.status_code = 200 then
        match r.jsonResult with
        | .error m => ([hdr, .excMsg m], false)
        | .ok (.obj fs) =>
          let summary : List OutLine :=
            [.importOk,
             .brandsProcessed (getD fs "brands" (.num 0)),
             .modelsProcessed (getD fs "models" (.num 0)),
             .createdCount (getD fs "created" (.num 0)),
             .updatedCount (getD fs "updated" (.num 0)),
             .skippedCount (getD fs "skipped" (.num 0))]
          let ev := getD fs "errors" .null
          if jsonTruthy ev then
            match errorsReport ev with
            | (ls, none) => (hdr :: summary ++ ls, true)
            | (ls, some m) => (hdr :: summary ++ ls ++ [.excMsg m], false)
          else
            (hdr :: summary, true)
        | .ok v =>
          ([hdr, .importOk,
            .excMsg ("\x27" ++ pyTypeName v ++ "\x27 object has no attribute \x27get\x27")],
           false)
      else
        ([hdr, .httpStatusError r.status_code, .bodyText r.text], false)
  ⟨body.1, [mkRequest data], body.2⟩

/-- `export_to_json_file(data, filename)`: the file written (name and
JSON content at the value level) and the two lines printed. -/
def export_to_json_file (data : Catalog) (filename : String) :
    (String × Json) × List OutLine :=
  ((filename, encodeCatalog data), [.exported filename, .pasteHint])

/-- Result of the `__main__` block: all lines printed, requests issued,
the success flag `send_to_tunexa` returned, and the files written. -/
structure RunOut where
  lines : List OutLine
  requests : List HttpRequest
  sendSuccess : Bool
  fileWrites : List (String × Json)

/-- The `__main__` block of `send_to_api.py`, after a successful import
of `auto_audio_db`: banner, option 1 (`send_to_tunexa`), and — only when
the send reports failure — option 2 (`export_to_json_file` to
`auto_audio_db.json`) followed by the manual-import instructions. -/
def runMain (data : Catalog) (post : PostOutcome) : RunOut :=
  let s := send_to_tunexa data post
  if s.success then
    ⟨.banner :: .option1 :: s.lines, s.requests, true, []⟩
  else
    let e := export_to_json_file data "auto_audio_db.json"
    ⟨.banner :: .option1 :: s.lines
       ++ .option2 :: e.2
       ++ [.manualHeader, .manualStep1, .manualStep2, .manualStep3, .manualStep4],
     s.requests, false, [e.1]⟩

/-- Whole-script outcome: either the guard around
`from main import auto_audio_db` raises and the process aborts via
`SystemExit` with its message, or the `__main__` block runs. -/
inductive ScriptOut where
  | aborted : String → ScriptOut
  | ran : RunOut → ScriptOut

/-- Message prefix of the `SystemExit` raised by the import guard. -/
def importErrPrefix : String :=
  "Nebolo možné importovať auto_audio_db z main.py: "

/-- The whole script: module import guard, then `__main__`.  `imp` is the
outcome of `from main import auto_audio_db` — the catalog value, or the
text of the exception the import raised. -/
def runScript (imp : Except String Catalog) (post : PostOutcome) : ScriptOut :=
  match imp with
  | .error e => .aborted (importErrPrefix ++ e)
  | .ok db => .ran (runMain db post)

/-- Requests issued over the whole script run. -/
def scriptRequests : ScriptOut → List HttpRequest
  | .aborted _ => []
  | .ran r => r.requests

/-- Files written over the whole script run. -/
def scriptWrites : ScriptOut → List (String × Json)
  | .aborted _ => []
  | .ran r => r.fileWrites

/-! ## Catalog data — `python/main.py`

`main.py` assigns `auto_audio_db = {}` (line 6) and then contains two
well-formed brand-data dict literals, `vag_group_data` (lines 14-124) and
`german_premium_data` (lines 128-325).  The text that follows line 325
(`,"Peugeot": ...` and, after the brace on line 419, `"Renault": ...`) is
not part of any well-formed literal, and no statement of the module ever
merges the brand data into `auto_audio_db`. -/

/-- `auto_audio_db = {}` — line 6 of `main.py`, the only assignment to
this name anywhere in the module.  `send_to_api.py` imports this value
and passes it to `send_to_tunexa` and `export_to_json_file`. -/
def auto_audio_db : Catalog := []

/-- The `vag_group_data` literal of `main.py` (lines 14-124), transcribed field for field. -/
def vag_group_data : Catalog := [
  ("Skoda", [
    ("Octavia", [
      ⟨"Gen 3 (5E)", "2012-2019", "Základný (4-8 repro)", "Canton Sound System (10 repro)"⟩,
      ⟨"Gen 4 (NX)", "2020-súčasnosť", "Základný (8 repro)", "Canton Sound System (12 repro)"⟩
    ]),
    ("Superb", [
      ⟨"Gen 2 (3T) (Facelift)", "2013-2015", "\x27Swing\x27 / \x27Bolero\x27 (8 repro)", "Škoda Sound System (10 repro)"⟩,
      ⟨"Gen 3 (3V)", "2015-2023", "\x27Swing\x27 / \x27Bolero\x27 (8 repro)", "Canton Sound System (12 repro)"⟩
    ]),
    ("Kodiaq", [
      ⟨"Gen 1", "2016-2023", "Základný (8 repro)", "Canton Sound System (10 repro)"⟩
    ]),
    ("Fabia", [
      ⟨"Gen 3 (NJ)", "2014-2021", "Základný (4 repro)", "Škoda Surround (6 repro, Arkamys)"⟩
    ])
  ]),
  ("Volkswagen", [
    ("Golf", [
      ⟨"Gen 7 (Mk7)", "2012-2019", "\x27Composition\x27 (4-8 repro)", "Dynaudio Excite (10 repro)"⟩,
      ⟨"Gen 8 (Mk8)", "2020-súčasnosť", "Základný (7 repro)", "Harman Kardon (10 repro)"⟩
    ]),
    ("Passat", [
      ⟨"B7", "2010-2014", "\x27RCD 310\x27 (8 repro)", "Dynaudio Confidence (10 repro)"⟩,
      ⟨"B8", "2014-2023", "\x27Composition Media\x27 (8 repro)", "Dynaudio Confidence (12 repro)"⟩
    ]),
    ("Tiguan", [
      ⟨"Gen 1 (Facelift)", "2011-2016", "\x27RCD 310\x27 (8 repro)", "Dynaudio (8 repro)"⟩,
      ⟨"Gen 2", "2016-2023", "Základný (8 repro)", "Dynaudio Excite (10 repro)"⟩
    ]),
    ("Polo", [
      ⟨"Gen 5 (6R/6C)", "2009-2017", "Základný (4-6 repro)", "Žiaden značkový prémiový systém"⟩,
      ⟨"Gen 6 (AW)", "2017-súčasnosť", "Základný (4-6 repro)", "BeatsAudio (6 repro + subwoofer)"⟩
    ]),
    ("Touareg", [
      ⟨"Gen 2 (7P)", "2010-2018", "Základný (8 repro)", "Dynaudio Confidence (12 repro)"⟩,
      ⟨"Gen 3 (CR)", "2018-súčasnosť", "Základný (8 repro)", "Dynaudio Consequence (14 repro)"⟩
    ])
  ]),
  ("Audi", [
    ("A3", [
      ⟨"8V", "2012-2020", "Audi Sound System (10 repro)", "Bang & Olufsen Sound System (14 repro)"⟩,
      ⟨"8Y", "2020-súčasnosť", "Audi Sound System (10 repro)", "Bang & Olufsen 3D (15 repro)"⟩
    ]),
    ("A4", [
      ⟨"B8 (Facelift)", "2012-2015", "Audi Sound System (10 repro, 180W)", "Bang & Olufsen Sound System (14 repro, 505W)"⟩,
      ⟨"B9", "2016-súčasnosť", "Audi Sound System (10 repro, 180W)", "Bang & Olufsen 3D Sound System (19 repro, 755W)"⟩
    ]),
    ("A6", [
      ⟨"C7 (4G)", "2011-2018", "Audi Sound System (10 repro, 180W)", "Bose Surround (14 repro) ALEBO Bang & Olufsen Advanced 3D (15 repro)"⟩,
      ⟨"C8 (4K)", "2018-súčasnosť", "Audi Sound System (10 repro)", "Bang & Olufsen Premium 3D (16 repro) ALEBO Bang & Olufsen Advanced 3D (19 repro)"⟩
    ]),
    ("Q5", [
      ⟨"Gen 1 (8R Facelift)", "2012-2017", "Audi Sound System (10 repro)", "Bang & Olufsen Sound System (14 repro)"⟩,
      ⟨"Gen 2 (FY)", "2017-súčasnosť", "Audi Sound System (10 repro)", "Bang & Olufsen 3D (19 repro)"⟩
    ]),
    ("Q7", [
      ⟨"Gen 1 (4L Facelift)", "2009-2015", "Základný (8 repro)", "Bose Surround (14 repro) ALEBO Bang & Olufsen Advanced (14 repro)"⟩,
      ⟨"Gen 2 (4M)", "2015-súčasnosť", "Audi Sound System (10 repro)", "Bose 3D (19 repro) ALEBO Bang & Olufsen 3D Advanced (23 repro)"⟩
    ])
  ]),
  ("Seat", [
    ("Leon", [
      ⟨"Gen 3 (5F)", "2012-2020", "Základný (6-8 repro)", "Seat Sound System (10 repro)"⟩,
      ⟨"Gen 4 (KL)", "2020-súčasnosť", "Základný (7 repro)", "BeatsAudio (10 repro, 340W)"⟩
    ]),
    ("Ibiza", [
      ⟨"Gen 4 (6J Facelift)", "2012-2017", "Základný (4-6 repro)", "Žiaden značkový prémiový systém"⟩,
      ⟨"Gen 5 (6F)", "2017-súčasnosť", "Základný (6 repro)", "BeatsAudio (7 repro, 300W)"⟩
    ]),
    ("Ateca", [
      ⟨"Gen 1", "2016-súčasnosť", "Základný (8 repro)", "Seat Sound System (10 repro)"⟩
    ])
  ]),
  ("Cupra", [
    ("Formentor", [
      ⟨"Gen 1", "2020-súčasnosť", "Základný (7 repro)", "BeatsAudio (10 repro, 340W)"⟩
    ]),
    ("Born", [
      ⟨"Gen 1", "2021-súčasnosť", "Základný (5 repro)", "BeatsAudio (10 repro)"⟩
    ])
  ]),
  ("Porsche", [
    ("911", [
      ⟨"991", "2011-2018", "Sound Package Plus (9 repro)", "Bose Surround (12 repro) ALEBO Burmester High-End (12 repro)"⟩,
      ⟨"992", "2019-súčasnosť", "Sound Package Plus (8 repro)", "Bose Surround (12 repro) ALEBO Burmester High-End (13 repro)"⟩
    ]),
    ("Macan", [
      ⟨"95B", "2014-súčasnosť", "Sound Package Plus (10 repro, 150W)", "Bose Surround (14 repro, 665W) ALEBO Burmester High-End (16 repro, 1000W+)"⟩
    ]),
    ("Cayenne", [
      ⟨"Gen 2 (92A)", "2010-2017", "Sound Package Plus (10 repro)", "Bose Surround (14 repro) ALEBO Burmester High-End (16 repro)"⟩,
      ⟨"Gen 3 (PO536)", "2017-súčasnosť", "Sound Package Plus (10 repro)", "Bose Surround (14 repro) ALEBO Burmester 3D High-End (21 repro)"⟩
    ]),
    ("Panamera", [
      ⟨"Gen 1 (970)", "2009-2016", "Sound Package Plus (10 repro)", "Bose Surround (14 repro) ALEBO Burmester High-End (16 repro)"⟩,
      ⟨"Gen 2 (971)", "2016-súčasnosť", "Hi-Fi (10 repro)", "Bose Surround (14 repro) ALEBO Burmester 3D High-End (21 repro)"⟩
    ])
  ]),
  ("Bentley", [
    ("Continental GT", [
      ⟨"Gen 3", "2018-súčasnosť", "Bentley Signature (10 repro, 650W)", "Bang & Olufsen for Bentley (16 repro, 1500W) ALEBO Naim for Bentley (18 repro, 2200W)"⟩
    ])
  ])
]

/-- The `german_premium_data` literal of `main.py` (lines 128-325, the portion up to the closing brace that ends the well-formed literal), transcribed field for field. -/
def german_premium_data : Catalog := [
  ("BMW", [
    ("Rad 1", [
      ⟨"F20/F21", "2011-2019", "Základný (6 repro) alebo HiFi (7 repro)", "Harman Kardon (12 repro)"⟩
    ]),
    ("Rad 3", [
      ⟨"F30/F31", "2012-2018", "Základný (6 repro) alebo HiFi (9 repro, 205W)", "Harman Kardon Surround (16 repro, 600W)"⟩,
      ⟨"G20/G21", "2019-súčasnosť", "Základný (6 repro) alebo HiFi (10 repro, 205W)", "Harman Kardon Surround (16 repro, 464W)"⟩
    ]),
    ("Rad 5", [
      ⟨"F10/F11 (Facelift)", "2013-2016", "HiFi (12 repro, 205W)", "Harman Kardon (16 repro, 600W) ALEBO Bang & Olufsen High End (16 repro, 1200W)"⟩,
      ⟨"G30/G31", "2017-2023", "HiFi (12 repro, 205W)", "Harman Kardon (16 repro, 600W) ALEBO Bowers & Wilkins Diamond (16 repro, 1400W)"⟩
    ]),
    ("X1", [
      ⟨"E84", "2009-2015", "Základný (6 repro) alebo HiFi (8 repro)", "Harman Kardon (11 repro)"⟩,
      ⟨"F48", "2015-2022", "Základný (6 repro) alebo HiFi (7 repro)", "Harman Kardon (12 repro)"⟩
    ]),
    ("X3", [
      ⟨"F25", "2010-2017", "Základný (6 repro) alebo HiFi (9 repro)", "Harman Kardon (16 repro)"⟩,
      ⟨"G01", "2017-súčasnosť", "HiFi (12 repro)", "Harman Kardon (16 repro)"⟩
    ]),
    ("X5", [
      ⟨"F15", "2013-2018", "HiFi (9 repro)", "Harman Kardon (16 repro) ALEBO Bang & Olufsen High End (16 repro)"⟩,
      ⟨"G05", "2018-súčasnosť", "HiFi (10 repro)", "Harman Kardon (16 repro) ALEBO Bowers & Wilkins Diamond (20 repro)"⟩
    ])
  ]),
  ("Mercedes-Benz", [
    ("A-Class", [
      ⟨"W176", "2012-2018", "Audio 20 (6 repro)", "Harman Kardon Logic7 (12 repro)"⟩,
      ⟨"W177", "2018-súčasnosť", "Základný (6 repro) alebo Advanced (10 repro)", "Burmester Surround (12 repro)"⟩
    ]),
    ("C-Class", [
      ⟨"W204 (Facelift)", "2011-2014", "Audio 20 (cca 8 repro)", "Harman Kardon Logic7 (12 repro)"⟩,
      ⟨"W205", "2014-2021", "Audio 20 (cca 8 repro)", "Burmester Surround (13 repro, 590W)"⟩,
      ⟨"W206", "2021-súčasnosť", "Základný systém", "Burmester 3D Surround (15 repro, 710W)"⟩
    ]),
    ("E-Class", [
      ⟨"W212 (Facelift)", "2013-2016", "Audio 20", "Harman Kardon Logic7 (14 repro)"⟩,
      ⟨"W213", "2016-2023", "Základný (8 repro)", "Burmester Surround (13 repro) ALEBO Burmester High-End 3D (23 repro)"⟩
    ]),
    ("S-Class", [
      ⟨"W222", "2013-2020", "Základný (10 repro)", "Burmester Surround (13 repro) ALEBO Burmester High-End 3D (24 repro)"⟩,
      ⟨"W223", "2020-súčasnosť", "Burmester 3D Surround (15 repro)", "Burmester High-End 4D (31 repro)"⟩
    ]),
    ("GLC-Class", [
      ⟨"X253", "2015-2022", "Audio 20 (8 repro)", "Burmester Surround (13 repro, 590W)"⟩
    ]),
    ("GLE-Class", [
      ⟨"W166 (ML-Class)", "2011-2018", "Audio 20", "Harman Kardon Logic7 (14 repro)"⟩,
      ⟨"V167", "2019-súčasnosť", "Advanced (9 repro)", "Burmester Surround (13 repro)"⟩
    ])
  ]),
  ("Toyota", [
    ("Yaris", [
      ⟨"XP130 (Gen 3)", "2011-2019", "Toyota Touch (4-6 repro)", "Žiaden značkový prémiový systém"⟩,
      ⟨"XP210 (Gen 4)", "2020-súčasnosť", "Základný (6 repro)", "JBL (8 repro)"⟩
    ]),
    ("Corolla", [
      ⟨"E170 (Gen 11)", "2013-2018", "Toyota Touch 2 (6 repro)", "Žiaden značkový prémiový systém (v EÚ)"⟩,
      ⟨"E210 (Gen 12)", "2018-súčasnosť", "Základný (6 repro)", "JBL (8 repro)"⟩
    ]),
    ("C-HR", [
      ⟨"Gen 1", "2016-2023", "Základný (6 repro)", "JBL (9 repro)"⟩
    ]),
    ("RAV4", [
      ⟨"XA40 (Gen 4)", "2013-2018", "Toyota Touch 2 (6 repro)", "JBL GreenEdge (11 repro)"⟩,
      ⟨"XA50 (Gen 5)", "2019-súčasnosť", "Základný (6 repro)", "JBL (11 repro)"⟩
    ])
  ]),
  ("Lexus", [
    ("IS", [
      ⟨"XE30", "2013-súčasnosť", "Lexus Premium (Pioneer) (10 repro)", "Mark Levinson Premium Surround (15 repro, 835W)"⟩
    ]),
    ("NX", [
      ⟨"AZ10 (Gen 1)", "2014-2021", "Lexus Premium (Pioneer) (10 repro)", "Mark Levinson (14 repro)"⟩,
      ⟨"AZ20 (Gen 2)", "2021-súčasnosť", "Lexus Premium (10 repro)", "Mark Levinson (17 repro)"⟩
    ]),
    ("RX", [
      ⟨"AL10 (Gen 3 facelift)", "2012-2015", "Lexus Premium (9 repro)", "Mark Levinson (15 repro)"⟩,
      ⟨"AL20 (Gen 4)", "2015-2022", "Lexus Premium (9 alebo 12 repro)", "Mark Levinson (15 repro)"⟩
    ])
  ]),
  ("Honda", [
    ("Civic", [
      ⟨"Gen 9 (FK)", "2012-2017", "Základný (4-6 repro)", "Honda Premium Audio (8 repro)"⟩,
      ⟨"Gen 10 (FK)", "2017-2022", "Základný (8 repro)", "Honda Premium Audio (11 repro)"⟩,
      ⟨"Gen 11 (FE/FL)", "2022-súčasnosť", "Základný (8 repro)", "Bose Centerpoint (12 repro)"⟩
    ]),
    ("CR-V", [
      ⟨"Gen 4 (RM)", "2012-2018", "Základný (6 repro)", "Premium Audio System (7 repro)"⟩,
      ⟨"Gen 5 (RW)", "2018-2023", "Základný (8 repro)", "Honda Premium Audio (9 repro)"⟩
    ])
  ]),
  ("Nissan", [
    ("Juke", [
      ⟨"F16 (Gen 2)", "2019-súčasnosť", "Základný (4 alebo 6 repro)", "Bose Personal Plus (8 repro)"⟩
    ]),
    ("Qashqai", [
      ⟨"J11 (Gen 2)", "2013-2021", "Základný (4 alebo 6 repro)", "Bose (8 repro)"⟩,
      ⟨"J12 (Gen 3)", "2021-súčasnosť", "Základný (6 repro)", "Bose Premium (10 repro)"⟩
    ]),
    ("X-Trail", [
      ⟨"T32 (Gen 3)", "2013-2021", "Základný (6 repro)", "Bose (8 repro)"⟩
    ])
  ]),
  ("Mazda", [
    ("Mazda 3", [
      ⟨"BM/BN (Gen 3)", "2013-2018", "Základný (4 alebo 6 repro)", "Bose Centerpoint 2 (9 repro)"⟩,
      ⟨"BP (Gen 4)", "2019-súčasnosť", "Mazda Harmonic Acoustics (8 repro)", "Bose (12 repro)"⟩
    ]),
    ("Mazda 6", [
      ⟨"GJ/GL (Gen 3)", "2012-súčasnosť", "Základný (4 alebo 6 repro)", "Bose Centerpoint 2 (11 repro)"⟩
    ]),
    ("CX-5", [
      ⟨"KE (Gen 1)", "2012-2017", "Základný (6 repro)", "Bose (9 repro)"⟩,
      ⟨"KF (Gen 2)", "2017-súčasnosť", "Základný (6 repro)", "Bose (10 repro)"⟩
    ])
  ]),
  ("Subaru", [
    ("Outback", [
      ⟨"BS (Gen 5)", "2014-2019", "Základný (6 repro)", "Harman Kardon (12 repro)"⟩
    ]),
    ("Forester", [
      ⟨"SJ (Gen 4)", "2012-2018", "Základný (4 alebo 6 repro)", "Harman Kardon (8 repro)"⟩
    ])
  ]),
  ("Mitsubishi", [
    ("ASX", [
      ⟨"Gen 1 (viacero faceliftov)", "2010-súčasnosť", "Základný (4 alebo 6 repro)", "Rockford Fosgate (9 repro, 710W)"⟩
    ]),
    ("Outlander", [
      ⟨"Gen 3 (PHEV v EÚ)", "2012-2021", "Základný (6 repro)", "Rockford Fosgate (9 repro, 710W)"⟩
    ])
  ]),
  ("Suzuki", [
    ("Vitara", [
      ⟨"Gen 4", "2015-súčasnosť", "Základný (4 repro)", "Rozšírený systém (6 repro, 2x tweeter)"⟩
    ]),
    ("S-Cross", [
      ⟨"Gen 2", "2013-2021", "Základný (4 repro)", "Rozšírený systém (6 repro)"⟩
    ])
  ]),
  ("Hyundai", [
    ("i20", [
      ⟨"Gen 2 (GB)", "2014-2020", "Základný (4-6 repro)", "Žiaden značkový prémiový systém"⟩,
      ⟨"Gen 3 (BC3)", "2020-súčasnosť", "Základný (6 repro)", "Bose Premium Sound (8 repro)"⟩
    ]),
    ("i30", [
      ⟨"GD (Gen 2)", "2012-2017", "Základný (4 alebo 6 repro)", "Príplatkový systém (6 repro + zosilňovač)"⟩,
      ⟨"PD (Gen 3)", "2017-súčasnosť", "Základný (4 alebo 6 repro)", "Žiaden značkový prémiový systém (na väčšine EÚ trhov)"⟩
    ]),
    ("Tucson", [
      ⟨"ix35 (Gen 2)", "2009-2015", "Základný (6 repro)", "Infinity Premium Sound (7 repro)"⟩,
      ⟨"TL (Gen 3)", "2015-2020", "Základný (6 repro)", "Infinity Premium Sound (8 repro)"⟩,
      ⟨"NX4 (Gen 4)", "2020-súčasnosť", "Základný (6 repro)", "Krell Premium Sound (8 repro)"⟩
    ]),
    ("Santa Fe", [
      ⟨"Gen 3 (DM)", "2012-2018", "Základný (6 repro)", "Infinity Premium Sound (10 repro)"⟩,
      ⟨"Gen 4 (TM)", "2018-súčasnosť", "Základný (6 repro)", "Krell Premium Sound (10 repro)"⟩
    ])
  ]),
  ("Kia", [
    ("Ceed", [
      ⟨"JD (Gen 2)", "2012-2018", "Základný (6 repro)", "Infinity Premium Sound (7 repro, na niektorých trhoch)"⟩,
      ⟨"CD (Gen 3)", "2018-súčasnosť", "Základný (6 repro)", "JBL Premium Sound (8 repro)"⟩
    ]),
    ("Sportage", [
      ⟨"SL (Gen 3)", "2010-2015", "Základný (6 repro)", "Infinity Premium Sound (7 repro)"⟩,
      ⟨"QL (Gen 4)", "2016-2021", "Základný (6 repro)", "JBL Premium Sound (8 repro)"⟩,
      ⟨"NQ5 (Gen 5)", "2021-súčasnosť", "Základný (6 repro)", "Harman Kardon Premium Sound (8 repro)"⟩
    ]),
    ("Sorento", [
      ⟨"Gen 2 (XM Facelift)", "2012-2014", "Základný (6 repro)", "Infinity Premium Sound (10 repro)"⟩,
      ⟨"Gen 3 (UM)", "2015-2020", "Základný (6 repro)", "Infinity Premium Sound (10 repro)"⟩,
      ⟨"Gen 4 (MQ4)", "2020-súčasnosť", "Základný (6 repro)", "Bose Premium Sound (12 repro)"⟩
    ])
  ]),
  ("Genesis", [
    ("G70", [
      ⟨"Gen 1", "2017-súčasnosť (vstup do EÚ cca 2021)", "Základný (9 repro)", "Lexicon (15 repro)"⟩
    ]),
    ("GV80", [
      ⟨"Gen 1", "2020-súčasnosť (vstup do EÚ cca 2021)", "Genesis Premium (12 repro)", "Lexicon (21 repro)"⟩
    ])
  ])
]

/-- Both well-formed brand literals of `main.py`, in source order. -/
def brandLiterals : Catalog := vag_group_data ++ german_premium_data

/-- A JSON value is a well-formed generation record: an object with
exactly the keys `generacia`, `roky`, `zakladny_system`,
`premiovy_system`, in that order, each holding a string (possibly
empty). -/
def entryJsonOk : Json → Bool
  | .obj fs =>
      (fs.map Prod.fst
        == ["generacia", "roky", "zakladny_system", "premiovy_system"])
      && fs.all fun p => match p.2 with | .str _ => true | _ => false
  | _ => false

/-- A JSON value is a well-formed models mapping: an object whose every
field holds an array of well-formed generation records. -/
def modelsJsonOk : Json → Bool
  | .obj ms => ms.all fun m =>
      match m.2 with | .arr es => es.all entryJsonOk | _ => false
  | _ => false

/-- A JSON value is a well-formed catalog: an object whose every field
holds a well-formed models mapping. -/
def catalogJsonOk : Json → Bool
  | .obj bs => bs.all fun b => modelsJsonOk b.2
  | _ => false

/-! ## Helper lemmas -/

/-- `send_to_tunexa` records exactly the one request it attempts. -/
theorem send_requests (data : Catalog) (post : PostOutcome) :
    (send_to_tunexa data post).requests = [mkRequest data] := rfl

/-- The `__main__` block issues exactly the requests of its one
`send_to_tunexa` call. -/
theorem runMain_requests (data : Catalog) (post : PostOutcome) :
    (runMain data post).requests = [mkRequest data] := by
  cases hs : (send_to_tunexa data post).success <;>
    simp [runMain, hs, send_requests]

/-- Decoding inverts the entry encoder. -/
theorem decodeEntry_encode (e : GenEntry) :
    decodeEntry (encodeEntry e) = some e := rfl

/-- Decoding inverts the entry-list encoder. -/
theorem decodeEntries_encode (es : List GenEntry) :
    decodeEntries (es.map encodeEntry) = some es := by
  induction es with
  | nil => rfl
  | cons e es ih => simp [decodeEntries, decodeEntry_encode, ih]

/-- Decoding inverts the models encoder. -/
theorem decodeModels_encode (ms : List (String × List GenEntry)) :
    decodeModels (ms.map fun m => (m.1, Json.arr (m.2.map encodeEntry))) =
      some ms := by
  induction ms with
  | nil => rfl
  | cons m ms ih =>
    rcases m with ⟨k, es⟩
    simp [decodeModels, decodeEntries_encode, ih]

/-- Decoding inverts the brands encoder. -/
theorem decodeBrands_encode (c : Catalog) :
    decodeBrands (c.map fun b => (b.1, encodeModels b.2)) = some c := by
  induction c with
  | nil => rfl
  | cons b c ih =>
    rcases b with ⟨k, ms⟩
    simp only [List.map_cons]
    rw [show encodeModels ms
          = Json.obj (ms.map fun m => (m.1, Json.arr (m.2.map encodeEntry)))
        from rfl]
    simp [decodeBrands, decodeModels_encode, ih]

/-! ## Claim theorems -/

/-- C10: for every catalog value — including one in which a brand maps a
model to an empty generation list — serializing it to JSON as
`export_to_json_file` and the request body do, and parsing the result
back, yields a structurally identical mapping, with the order of each
generation list preserved (the decoded value equals the original
ordered association structure on the nose). -/
theorem catalog_json_round_trip (c : Catalog) (f : String) :
    decodeCatalog (encodeCatalog c) = some c ∧
    (export_to_json_file c f).1.2 = encodeCatalog c ∧
    (mkRequest c).body = encodeCatalog c := by
  refine ⟨?_, rfl, rfl⟩
  simpa [decodeCatalog, encodeCatalog] using decodeBrands_encode c

/-- C9: every entry of every model of every brand in the catalog data of
`main.py` (`vag_group_data` together with `german_premium_data`) is an
object with exactly the four string fields `generacia`, `roky`,
`zakladny_system`, `premiovy_system` (the spec's `generation`, `years`,
`base_system`, `premium_system`), and the well-formedness predicate does
not require any of the four strings to be non-empty. -/
theorem catalog_entries_have_four_string_fields :
    catalogJsonOk (encodeCatalog brandLiterals) = true ∧
    entryJsonOk (encodeEntry ⟨"", "", "", ""⟩) = true := by
  exact ⟨rfl, rfl⟩

/-- C7: whenever `from main import auto_audio_db` raises, the script
aborts at once via `SystemExit` with the descriptive message (prefix plus
the exception text), issuing no HTTP request and writing no fallback
file, regardless of what the network would have done. -/
theorem script_aborts_on_import_failure (e : String) (post : PostOutcome) :
    runScript (.error e) post = .aborted (importErrPrefix ++ e) ∧
    scriptRequests (runScript (.error e) post) = [] ∧
    scriptWrites (runScript (.error e) post) = [] ∧
    importErrPrefix = "Nebolo možné importovať auto_audio_db z main.py: " :=
  ⟨rfl, rfl, rfl, rfl⟩

/-- C6: every run issues exactly one HTTP POST, whatever the outcome —
to `API_URL` (path `/api/vehicle-speakers/import`), with a
`Content-Type: application/json` header, the JSON-encoded catalog as
body, and a 30-second timeout; no branch ever issues a second request. -/
theorem run_issues_exactly_one_post (data : Catalog) (post : PostOutcome) :
    (runMain data post).requests = [mkRequest data] ∧
    (runMain data post).requests.length = 1 ∧
    mkRequest data =
      ⟨"http://localhost:3000/api/vehicle-speakers/import",
       "application/json", encodeCatalog data, 30⟩ := by
  refine ⟨runMain_requests data post, ?_, rfl⟩
  rw [runMain_requests data post]
  rfl

/-- C5 counterexample: a run in which the POST times out during
connection establishment — `requests.exceptions.ConnectTimeout`, a
`ConnectionError` subclass — is caught by the handler at line 46 and
reported with the connection-specific lines, not generically with the
exception text, contradicting the claim that every timed-out call
resolves as the generic case. -/
theorem send_connect_timeout_connection_report :
    send_to_tunexa [] .connectTimeoutFailure =
      ⟨[.sendingBrands 0, .connErr, .connHint], [mkRequest []], false⟩ := rfl

/-- C5 (amended): a timeout of the POST that strikes after the
connection is established (a `requests.exceptions.Timeout` that is not a
`ConnectionError`, i.e. a read timeout) resolves exactly as the generic
unexpected-failure case does — `send_to_tunexa` produces the very same
output as for any other exception with the same text, printing the
generic error line, not the connection-specific message, and returns
`False`; a timeout that strikes during connection establishment
(`ConnectTimeout`, a `ConnectionError` subclass) is instead reported
exactly as a connection failure, also returning `False`. -/
theorem send_timeout_resolves_generic (data : Catalog) (m : String) :
    send_to_tunexa data (.timeoutFailure m) =
      send_to_tunexa data (.otherFailure m) ∧
    (send_to_tunexa data (.timeoutFailure m)).lines =
      [.sendingBrands data.length, .excMsg m] ∧
    (send_to_tunexa data (.timeoutFailure m)).success = false ∧
    OutLine.connErr ∉ (send_to_tunexa data (.timeoutFailure m)).lines ∧
    send_to_tunexa data .connectTimeoutFailure =
      send_to_tunexa data .connectionFailure ∧
    (send_to_tunexa data .connectTimeoutFailure).success = false := by
  refine ⟨rfl, rfl, rfl, ?_, rfl, rfl⟩
  simp [send_to_tunexa]

/-- C4: a connection error of the POST is reported with the
connection-specific lines (and returns `False` without the exception
propagating); the report contains neither the HTTP-status error line nor
the generic exception line, so it is distinct from both other reports. -/
theorem send_connection_error_distinct (data : Catalog) :
    send_to_tunexa data .connectionFailure =
      ⟨[.sendingBrands data.length, .connErr, .connHint],
       [mkRequest data], false⟩ ∧
    OutLine.connErr ∈ (send_to_tunexa data .connectionFailure).lines ∧
    (∀ s, OutLine.httpStatusError s ∉
        (send_to_tunexa data .connectionFailure).lines) ∧
    (∀ m, OutLine.excMsg m ∉
        (send_to_tunexa data .connectionFailure).lines) := by
  refine ⟨rfl, ?_, ?_, ?_⟩ <;> simp [send_to_tunexa]

/-- C3: on any response with a status code other than 200,
`send_to_tunexa` prints the status code and the raw response body and
returns `False`; the result is the same whatever `response.json()` would
have yielded, so the body is not interpreted. -/
theorem send_non200_reports_status_and_raw_body (data : Catalog)
    (status : Nat) (t : String) (jr : Except String Json)
    (h : status ≠ 200) :
    send_to_tunexa data (.ok ⟨status, t, jr⟩) =
      ⟨[.sendingBrands data.length, .httpStatusError status, .bodyText t],
       [mkRequest data], false⟩ := by
  simp [send_to_tunexa, h]

/-- Witness for C3 at the spec's scenario 2: status 500 with body
`internal error`. -/
theorem send_non200_witness :
    send_to_tunexa [] (.ok ⟨500, "internal error", .error "no json"⟩) =
      ⟨[.sendingBrands 0, .httpStatusError 500, .bodyText "internal error"],
       [mkRequest []], false⟩ :=
  send_non200_reports_status_and_raw_body [] 500 "internal error"
    (.error "no json") (by decide)

/-- C1: in every run of the `__main__` block, if `send_to_tunexa`
reports failure then `export_to_json_file` writes the full catalog to
`auto_audio_db.json` and the manual-import instructions are printed, and
if it reports success no file is written. -/
theorem importer_fallback_iff_send_fails (data : Catalog) (post : PostOutcome) :
    ((runMain data post).sendSuccess = false →
       (runMain data post).fileWrites =
         [("auto_audio_db.json", encodeCatalog data)] ∧
       OutLine.exported "auto_audio_db.json" ∈ (runMain data post).lines ∧
       OutLine.manualHeader ∈ (runMain data post).lines ∧
       OutLine.manualStep1 ∈ (runMain data post).lines ∧
       OutLine.manualStep2 ∈ (runMain data post).lines ∧
       OutLine.manualStep3 ∈ (runMain data post).lines ∧
       OutLine.manualStep4 ∈ (runMain data post).lines) ∧
    ((runMain data post).sendSuccess = true →
       (runMain data post).fileWrites = []) := by
  cases hs : (send_to_tunexa data post).success <;>
    simp [runMain, hs, export_to_json_file]

/-- Witness for C1: with a connection failure the fallback file holds
the full catalog, and with a clean 200 response no file is written. -/
theorem importer_fallback_iff_send_fails_witness :
    (runMain [] .connectionFailure).fileWrites =
      [("auto_audio_db.json", encodeCatalog [])] ∧
    (runMain [] (.ok ⟨200, "\x7b\x7d", .ok (.obj [])⟩)).fileWrites = [] :=
  ⟨((importer_fallback_iff_send_fails [] .connectionFailure).1 rfl).1,
   (importer_fallback_iff_send_fails []
      (.ok ⟨200, "\x7b\x7d", .ok (.obj [])⟩)).2 rfl⟩

/-- C2 counterexample: the response has status 200 and its body `[]` is
parseable JSON, yet `send_to_tunexa` hits an `AttributeError` on
`result.get` and returns `False` — the claim's `returns success (True)`
fails for parseable non-object bodies. -/
theorem send_200_parseable_nonobject_fails :
    send_to_tunexa [] (.ok ⟨200, "[]", .ok (.arr [])⟩) =
      ⟨[.sendingBrands 0, .importOk,
        .excMsg "\x27list\x27 object has no attribute \x27get\x27"],
       [mkRequest []], false⟩ := rfl

/-- `dict.get` returns the default when the key is absent. -/
theorem getD_default_of_absent (fs : List (String × Json)) (k : String)
    (d : Json) (h : lookupField fs k = none) : getD fs k d = d := by
  simp [getD, h]

/-- C2 (amended): for every 200 response whose body parses as a JSON
object in which the `errors` field is absent, empty (falsy), or a list:
`send_to_tunexa` returns `True`; when `errors` is absent or falsy the
output is exactly the summary with no errors section; and every one of
the five integer fields that is absent from the body is displayed as
zero. -/
theorem send_200_object_success (data : Catalog) (t : String)
    (fs : List (String × Json))
    (h : jsonTruthy (getD fs "errors" .null) = false ∨
         ∃ xs, getD fs "errors" .null = Json.arr xs) :
    (send_to_tunexa data (.ok ⟨200, t, .ok (.obj fs)⟩)).success = true ∧
    (jsonTruthy (getD fs "errors" .null) = false →
       (send_to_tunexa data (.ok ⟨200, t, .ok (.obj fs)⟩)).lines =
         [.sendingBrands data.length, .importOk,
          .brandsProcessed (getD fs "brands" (.num 0)),
          .modelsProcessed (getD fs "models" (.num 0)),
          .createdCount (getD fs "created" (.num 0)),
          .updatedCount (getD fs "updated" (.num 0)),
          .skippedCount (getD fs "skipped" (.num 0))] ∧
       ∀ n, OutLine.errorsHeader n ∉
           (send_to_tunexa data (.ok ⟨200, t, .ok (.obj fs)⟩)).lines) ∧
    (lookupField fs "brands" = none →
       OutLine.brandsProcessed (.num 0) ∈
         (send_to_tunexa data (.ok ⟨200, t, .ok (.obj fs)⟩)).lines) ∧
    (lookupField fs "models" = none →
       OutLine.modelsProcessed (.num 0) ∈
         (send_to_tunexa data (.ok ⟨200, t, .ok (.obj fs)⟩)).lines) ∧
    (lookupField fs "created" = none →
       OutLine.createdCount (.num 0) ∈
         (send_to_tunexa data (.ok ⟨200, t, .ok (.obj fs)⟩)).lines) ∧
    (lookupField fs "updated" = none →
       OutLine.updatedCount (.num 0) ∈
         (send_to_tunexa data (.ok ⟨200, t, .ok (.obj fs)⟩)).lines) ∧
    (lookupField fs "skipped" = none →
       OutLine.skippedCount (.num 0) ∈
         (send_to_tunexa data (.ok ⟨200, t, .ok (.obj fs)⟩)).lines) := by
  cases hb : jsonTruthy (getD fs "errors" .null) with
  | false =>
    have hsend : send_to_tunexa data (.ok ⟨200, t, .ok (.obj fs)⟩) =
        ⟨[.sendingBrands data.length, .importOk,
          .brandsProcessed (getD fs "brands" (.num 0)),
          .modelsProcessed (getD fs "models" (.num 0)),
          .createdCount (getD fs "created" (.num 0)),
          .updatedCount (getD fs "updated" (.num 0)),
          .skippedCount (getD fs "skipped" (.num 0))],
         [mkRequest data], true⟩ := by
      simp [send_to_tunexa, hb]
    refine ⟨?_, ?_, ?_, ?_, ?_, ?_, ?_⟩
    · rw [hsend]
    · intro _
      constructor
      · rw [hsend]
      · intro n; rw [hsend]; simp
    · intro h'; rw [hsend]; simp [getD_default_of_absent _ _ _ h']
    · intro h'; rw [hsend]; simp [getD_default_of_absent _ _ _ h']
    · intro h'; rw [hsend]; simp [getD_default_of_absent _ _ _ h']
    · intro h'; rw [hsend]; simp [getD_default_of_absent _ _ _ h']
    · intro h'; rw [hsend]; simp [getD_default_of_absent _ _ _ h']
  | true =>
    rcases h with h | ⟨xs, hxs⟩
    · rw [h] at hb; exact Bool.noConfusion hb
    · rcases xs with _ | ⟨x, xs⟩
      · rw [hxs] at hb; simp [jsonTruthy] at hb
      · have hsend : send_to_tunexa data (.ok ⟨200, t, .ok (.obj fs)⟩) =
            ⟨.sendingBrands data.length :: .importOk ::
               .brandsProcessed (getD fs "brands" (.num 0)) ::
               .modelsProcessed (getD fs "models" (.num 0)) ::
               .createdCount (getD fs "created" (.num 0)) ::
               .updatedCount (getD fs "updated" (.num 0)) ::
               .skippedCount (getD fs "skipped" (.num 0)) ::
               .errorsHeader ((x :: xs).length) ::
               ((x :: xs).take 5).map OutLine.errorItem,
             [mkRequest data], true⟩ := by
          simp [send_to_tunexa, hxs, errorsReport, pyLenE, pySliceFive,
                jsonTruthy]
        refine ⟨?_, ?_, ?_, ?_, ?_, ?_, ?_⟩
        · rw [hsend]
        · intro h'; exact Bool.noConfusion h'
        · intro h'; rw [hsend]; simp [getD_default_of_absent _ _ _ h']
        · intro h'; rw [hsend]; simp [getD_default_of_absent _ _ _ h']
        · intro h'; rw [hsend]; simp [getD_default_of_absent _ _ _ h']
        · intro h'; rw [hsend]; simp [getD_default_of_absent _ _ _ h']
        · intro h'; rw [hsend]; simp [getD_default_of_absent _ _ _ h']

/-- Witness for C2 (amended) at the spec's scenario 4: a 200 response
with an empty-object body — success, all counters shown as zero, no
errors section. -/
theorem send_200_object_success_witness :
    (send_to_tunexa [] (.ok ⟨200, "\x7b\x7d", .ok (.obj [])⟩)).success = true ∧
    OutLine.brandsProcessed (.num 0) ∈
      (send_to_tunexa [] (.ok ⟨200, "\x7b\x7d", .ok (.obj [])⟩)).lines ∧
    ∀ n, OutLine.errorsHeader n ∉
        (send_to_tunexa [] (.ok ⟨200, "\x7b\x7d", .ok (.obj [])⟩)).lines :=
  ⟨(send_200_object_success [] "\x7b\x7d" [] (Or.inl rfl)).1,
   (send_200_object_success [] "\x7b\x7d" [] (Or.inl rfl)).2.2.1 rfl,
   fun n => ((send_200_object_success [] "\x7b\x7d" [] (Or.inl rfl)).2.1 rfl).2 n⟩

/-- C8 (code defect): the value `auto_audio_db` that the importer sends
is the empty mapping — line 6 of `main.py` initializes it to `{}` and no
later statement of the module adds the brand literals to it (the module
is not even a well-formed program past line 325) — while the catalog
literals `vag_group_data` and `german_premium_data` are non-empty; so
the request body of every run over `auto_audio_db` is the empty JSON
object, not the constructed brand → model → generations mapping. -/
theorem auto_audio_db_sent_empty (post : PostOutcome) :
    auto_audio_db = ([] : Catalog) ∧
    encodeCatalog auto_audio_db = .obj [] ∧
    vag_group_data ≠ ([] : Catalog) ∧
    german_premium_data ≠ ([] : Catalog) ∧
    (runMain auto_audio_db post).requests =
      [⟨API_URL, "application/json", .obj [], 30⟩] := by
  refine ⟨rfl, rfl, ?_, ?_, ?_⟩
  · simp [vag_group_data]
  · simp [german_premium_data]
  · rw [runMain_requests]
    rfl
